import Mathlib

/-!
Verification of the Sphinx build-configuration module `docs/conf.py` of the
Totem repository.

The module is a flat table of top-level bindings (strings, lists of strings,
lists of fixed-arity tuples) plus one import-time side effect: it registers a
PHP lexer, constructed with `startinline=True`, under the key `"php"` in the
process-wide lexer registry `sphinx.highlighting.lexers`.

Embedding choices:
* the top-level bindings of the module are collected in the record
  `SphinxConfig`; the concrete values assigned by `docs/conf.py` form `conf`;
* the external `PhpLexer` class is modelled by the record `PhpLexer`, which
  records the only constructor option the module passes (`startinline`);
* the external lexer registry is a string-keyed dictionary, modelled as an
  insertion-ordered association list with Python-dict update semantics
  (`dictSet` replaces in place when the key exists, appends otherwise);
* loading the module is `loadModule`: given whether the external
  lexer-construction dependency is importable and the current registry, it
  either yields the module's bindings together with the updated registry, or
  fails with an import error before any registry mutation (the two `import`
  statements on lines 64-65 of `conf.py` precede the assignment on line 67).
-/

/-- Model of the external `pygments.lexers.web.PhpLexer` class: only the
constructor option that `docs/conf.py` passes is observable here. -/
structure PhpLexer where
  startinline : Bool
deriving DecidableEq, Repr

/-- The process-wide lexer registry `sphinx.highlighting.lexers`, as an
insertion-ordered association list from language tags to lexer instances. -/
def Registry : Type := List (String × PhpLexer)

instance : DecidableEq Registry := by
  unfold Registry
  infer_instance

/-- Python-dict lookup `d[k]` (as an `Option`, i.e. `d.get(k)`). -/
def dictGet : Registry → String → Option PhpLexer
  | [], _ => none
  | (k', v') :: rest, k => if k' = k then some v' else dictGet rest k

/-- Python-dict assignment `d[k] = v`: replace in place if the key is
present, append otherwise. -/
def dictSet : Registry → String → PhpLexer → Registry
  | [], k, v => [(k, v)]
  | (k', v') :: rest, k, v =>
      if k' = k then (k', v) :: rest else (k', v') :: dictSet rest k v

/-- The keys of a registry, in insertion order (`d.keys()`). -/
def dictKeys (r : Registry) : List String :=
  r.map Prod.fst

/-- The top-level bindings declared by `docs/conf.py`. -/
structure SphinxConfig where
  extensions : List String
  templates_path : List String
  source_suffix : String
  master_doc : String
  project : String
  copyright : String
  version : String
  release : String
  language : String
  highlight_language : String
  exclude_patterns : List String
  latex_documents : List (String × String × String × String × String)
  texinfo_documents :
    List (String × String × String × String × String × String × String)
deriving Repr

/-- The concrete values `docs/conf.py` assigns to its top-level bindings. -/
def conf : SphinxConfig where
  extensions := []
  templates_path := [".templates"]
  source_suffix := ".rst"
  master_doc := "index"
  project := "Totem"
  copyright := "2013, Baptiste \"Talus\" Clavié"
  version := "1.4"
  release := "1.4.0"
  language := "en"
  highlight_language := "php"
  exclude_patterns := [".build"]
  latex_documents :=
    [("index", "Totem.tex", "Totem Documentation",
      "Baptiste \"Talus\" Clavié", "manual")]
  texinfo_documents :=
    [("index", "Totem", "Totem Documentation",
      "Baptiste \"Talus\" Clavié", "Totem", "Changeset Calculator.",
      "Miscellaneous")]

/-- The failure kinds a load of `docs/conf.py` can surface.  The module
itself can only fail on its `import` statements. -/
inductive LoadError where
  | importFailure
deriving DecidableEq, Repr

/-- Loading `docs/conf.py` once, in a process whose lexer registry is `r`.
If the external lexer-construction dependency is importable the load yields
the module's bindings and executes `lexers['php'] = PhpLexer(startinline=True)`
on the registry; otherwise the `import` on lines 64-65 raises before the
assignment on line 67 runs, so the registry is returned unmodified. -/
def loadModule (depAvailable : Bool) (r : Registry) :
    Except LoadError SphinxConfig × Registry :=
  if depAvailable then
    (.ok conf, dictSet r "php" { startinline := true })
  else
    (.error .importFailure, r)

-- ### Dictionary lemmas

theorem dictGet_dictSet_self (r : Registry) (k : String) (v : PhpLexer) :
    dictGet (dictSet r k v) k = some v := by
  induction r with
  | nil => simp [dictSet, dictGet]
  | cons hd tl ih =>
      obtain ⟨k', v'⟩ := hd
      by_cases h : k' = k
      · simp [dictSet, dictGet, h]
      · simp [dictSet, dictGet, h, ih]

theorem dictGet_dictSet_ne (r : Registry) (k : String) (v : PhpLexer)
    (k' : String) (h : k' ≠ k) :
    dictGet (dictSet r k v) k' = dictGet r k' := by
  induction r with
  | nil =>
      have hne : ¬k = k' := fun hk => h hk.symm
      simp [dictSet, dictGet, hne]
  | cons hd tl ih =>
      obtain ⟨k'', v''⟩ := hd
      by_cases hk : k'' = k
      · subst hk
        have hne : ¬k'' = k' := fun hk' => h hk'.symm
        simp [dictSet, dictGet, hne]
      · simp only [dictSet, if_neg hk]
        by_cases hk' : k'' = k'
        · simp [dictGet, hk']
        · simp [dictGet, hk', ih]

theorem dictKeys_dictSet_of_not_mem (r : Registry) (k : String) (v : PhpLexer)
    (h : dictGet r k = none) :
    dictKeys (dictSet r k v) = dictKeys r ++ [k] := by
  induction r with
  | nil => simp [dictSet, dictKeys]
  | cons hd tl ih =>
      obtain ⟨k', v'⟩ := hd
      by_cases hk : k' = k
      · simp [dictGet, hk] at h
      · simp only [dictGet, if_neg hk] at h
        simp [dictSet, dictKeys, if_neg hk] at ih ⊢
        exact ih h

theorem dictSet_idem (r : Registry) (k : String) (v : PhpLexer) :
    dictSet (dictSet r k v) k v = dictSet r k v := by
  induction r with
  | nil => simp [dictSet]
  | cons hd tl ih =>
      obtain ⟨k', v'⟩ := hd
      by_cases hk : k' = k
      · simp [dictSet, hk]
      · simp [dictSet, hk, ih]

-- ### Claims

/-- C1: loading the module exactly once, in a process whose registry does not
yet hold the key `"php"`, stores under `"php"` a lexer constructed with its
start-inline option enabled, leaves every other key's binding unchanged, and
adds exactly the one key `"php"` to the registry's key set. -/
theorem load_once_registers_php (r : Registry)
    (hfresh : dictGet r "php" = none) :
    dictGet (loadModule true r).2 "php" = some { startinline := true } ∧
    (∀ k : String, k ≠ "php" →
      dictGet (loadModule true r).2 k = dictGet r k) ∧
    dictKeys (loadModule true r).2 = dictKeys r ++ ["php"] := by
  refine ⟨?_, ?_, ?_⟩
  · simpa [loadModule] using dictGet_dictSet_self r "php" ⟨true⟩
  · intro k hk
    simpa [loadModule] using dictGet_dictSet_ne r "php" ⟨true⟩ k hk
  · simpa [loadModule] using dictKeys_dictSet_of_not_mem r "php" ⟨true⟩ hfresh

/-- Witness for C1 at the concrete registry `[("python", ⟨false⟩)]`, which
does not contain the key `"php"`. -/
theorem load_once_registers_php_witness :
    dictGet (loadModule true [("python", ⟨false⟩)]).2 "php" =
      some { startinline := true } ∧
    dictGet (loadModule true [("python", ⟨false⟩)]).2 "python" =
      dictGet [("python", ⟨false⟩)] "python" ∧
    dictKeys (loadModule true [("python", ⟨false⟩)]).2 =
      ["python", "php"] := by
  have h := load_once_registers_php [("python", ⟨false⟩)] (by decide)
  exact ⟨h.1, h.2.1 "python" (by decide), h.2.2⟩

/-- C2: loading the module a second time in the same process does not raise,
and re-running the load on any registry state reached after one load yields
exactly the same registry state again (idempotent registration). -/
theorem load_twice_idempotent (r : Registry) :
    (loadModule true ((loadModule true r).2)).1 = .ok conf ∧
    (loadModule true ((loadModule true r).2)).2 = (loadModule true r).2 := by
  refine ⟨rfl, ?_⟩
  simpa [loadModule] using dictSet_idem r "php" ⟨true⟩

/-- C3: immediately after load the top-level bindings satisfy
`project = "Totem"`, `version = "1.4"`, `release = "1.4.0"`, and
`highlight_language = "php"`. -/
theorem conf_metadata :
    conf.project = "Totem" ∧ conf.version = "1.4" ∧
    conf.release = "1.4.0" ∧ conf.highlight_language = "php" :=
  ⟨rfl, rfl, rfl, rfl⟩

/-- C4: every entry of `latex_documents` is a 5-tuple and every entry of
`texinfo_documents` is a 7-tuple (this is carried by the element types of the
two fields of `SphinxConfig`), and the first element of every entry of both
sequences equals `master_doc`, which is the string `"index"`. -/
theorem documents_reference_master_doc :
    (conf.latex_documents.all fun d => d.1 = conf.master_doc) = true ∧
    (conf.texinfo_documents.all fun d => d.1 = conf.master_doc) = true ∧
    conf.master_doc = "index" := by
  refine ⟨?_, ?_, rfl⟩ <;> decide

/-- C5: when the external lexer-construction dependency is unavailable at load
time, loading the module fails with the import-failure error, and the registry
is exactly the one the process started with: no insertion becomes visible. -/
theorem load_without_dependency_fails (r : Registry) :
    loadModule false r = (.error .importFailure, r) :=
  rfl

/-- C6: the binding `source_suffix` equals the literal string `".rst"`. -/
theorem conf_source_suffix : conf.source_suffix = ".rst" :=
  rfl

/-- C7: the sequence `templates_path` contains exactly one entry, the string
`".templates"`. -/
theorem conf_templates_path : conf.templates_path = [".templates"] :=
  rfl

/-- C8: the sequence `exclude_patterns` contains exactly one entry, the string
`".build"`. -/
theorem conf_exclude_patterns : conf.exclude_patterns = [".build"] :=
  rfl

/-- C9: the binding `extensions` is the empty sequence of strings. -/
theorem conf_extensions_empty : conf.extensions = ([] : List String) :=
  rfl

/-- C10: the language tag under which the lexer is registered equals the
configured default `highlight_language` — both are `"php"` — so after any
load the default fenced-code language resolves to the custom lexer. -/
theorem registered_tag_matches_highlight_language (r : Registry) :
    conf.highlight_language = "php" ∧
    dictGet (loadModule true r).2 conf.highlight_language =
      some { startinline := true } := by
  refine ⟨rfl, ?_⟩
  simpa [loadModule, conf] using dictGet_dictSet_self r "php" ⟨true⟩
